import Mathlib

/-!
Shallow embedding of the scrapli_community asyncscp file-transfer feature.

Sources embedded:
- scrapli_community/features/asyncscp/driver.py:
  FileCheckResult, FileTransferResult, check_local_file, file_transfer
- scrapli_community/cisco/cisco_iosxe/_async.py:
  _ensure_scp_capability, check_device_file

The device-specific abstract methods called by file_transfer
(check_device_file / check_local_file probes, _ensure_scp_capability,
_cleanup_after_transfer, _get_device_fs, _async_file_transfer) perform I/O
against the device; they are modelled by a TransferEnv record holding the
values those calls return during one orchestration run, and the side effects
file_transfer triggers (negotiator calls, copy-engine calls, cleanup calls)
are counted in an Effects record returned alongside the result.
All text processing from the source's regular expressions is embedded as
executable functions over List Char, since the Python code operates on the
raw command output strings.
-/

namespace ScrapliScp

deriving instance DecidableEq for Except

/-- mirrors scrapli driver.py FileCheckResult: hash (empty string on error),
size in bytes, free space in bytes. -/
structure FileCheckResult where
  hash : String
  size : Nat
  free : Nat
deriving DecidableEq

/-- mirrors scrapli driver.py FileTransferResult (exists / transferred / verified). -/
structure FileTransferResult where
  «exists» : Bool
  transferred : Bool
  verified : Bool
deriving DecidableEq

/-- the only exception file_transfer is modelled to propagate: a transport
failure raised by the copy engine (_async_file_transfer). -/
inductive TransferError where
  | transportFailure
deriving DecidableEq

/-- responses of the device-specific abstract methods during one run of
file_transfer: the detected filesystem, the three probe results
(source pre-copy, destination pre-copy, destination post-copy), the value
returned by _ensure_scp_capability as a function of its force argument,
and whether the copy engine call succeeds or raises. -/
structure TransferEnv where
  device_fs_detected : Option String
  src_probe : FileCheckResult
  dst_probe_pre : FileCheckResult
  dst_probe_post : FileCheckResult
  ensure_scp : Option Bool → Option Bool
  copy_ok : Bool

/-- counts of the externally visible calls file_transfer makes: capability
negotiator calls, copy-engine calls, cleanup calls. -/
structure Effects where
  negotiator_calls : Nat
  engine_calls : Nat
  cleanup_calls : Nat
deriving DecidableEq

/-- operation argument of file_transfer (Literal get / put in the source). -/
inductive Operation where
  | get
  | put
deriving DecidableEq

/-- tail of file_transfer from the overwrite gate onward: overwrite gate,
free-space gate, capability gate, copy, conditional cleanup, post-check.
src_file_data / dst_file_data / result_exists are the values of the Python
locals when this point of the function is reached. -/
def transfer_tail (env : TransferEnv) (src_file_data dst_file_data : FileCheckResult)
    (result_exists : Bool) (verify_hash overwrite : Bool)
    (force_scp_config : Option Bool) (cleanup : Bool) :
    Except TransferError FileTransferResult × Effects :=
  if dst_file_data.hash ≠ "" ∧ overwrite = false then
    (.ok ⟨result_exists, false, false⟩, ⟨0, 0, 0⟩)
  else if dst_file_data.free < src_file_data.size then
    (.ok ⟨result_exists, false, false⟩, ⟨0, 0, 0⟩)
  else
    let scp_capability := env.ensure_scp force_scp_config
    if scp_capability = some false then
      (.ok ⟨result_exists, false, false⟩, ⟨1, 0, 0⟩)
    else if env.copy_ok = false then
      (.error .transportFailure, ⟨1, 1, 0⟩)
    else
      let cleanup_calls := if cleanup = true ∧ scp_capability = some true then 1 else 0
      if verify_hash then
        let dst2 := env.dst_probe_post
        (.ok ⟨result_exists || decide (dst2.hash ≠ ""), true,
              decide (dst2.hash ≠ "" ∧ dst2.hash = src_file_data.hash)⟩,
         ⟨1, 1, cleanup_calls⟩)
      else
        (.ok ⟨result_exists, true, false⟩, ⟨1, 1, cleanup_calls⟩)

/-- embedding of AsyncSCPFeature.file_transfer (driver.py).  Follows the
source control flow: destination-name normalization, filesystem detection,
pre-check (source probe, not-found short-circuit, destination probe,
idempotency short-circuit), then the gates / copy / cleanup / post-check
tail.  The operation argument only selects which concrete probe backs
src_check / dst_check in the source; the env already records the probe
responses, so it does not influence the embedded control flow. -/
def file_transfer (env : TransferEnv) (operation : Operation) (src dst : String)
    (verify_hash : Bool) (device_fs : String) (overwrite : Bool)
    (force_scp_config : Option Bool) (cleanup : Bool) :
    Except TransferError FileTransferResult × Effects :=
  let _dst := if dst = "" ∨ dst = "." then src else dst
  let _device_fs := if device_fs = "" then env.device_fs_detected else some device_fs
  let _op := operation
  if verify_hash then
    let src_file_data := env.src_probe
    if src_file_data.hash = "" then
      (.ok ⟨false, false, false⟩, ⟨0, 0, 0⟩)
    else
      let dst_file_data := env.dst_probe_pre
      let result_exists := decide (dst_file_data.hash ≠ "")
      if dst_file_data.hash ≠ "" ∧ src_file_data.hash = dst_file_data.hash then
        (.ok ⟨result_exists, false, true⟩, ⟨0, 0, 0⟩)
      else
        transfer_tail env src_file_data dst_file_data result_exists
          verify_hash overwrite force_scp_config cleanup
  else
    transfer_tail env ⟨"", 0, 0⟩ ⟨"", 0, 0⟩ false
      verify_hash overwrite force_scp_config cleanup

/-- split a character list at newline characters, mirroring Python
str.split(chr(10)) as used on the show-run output. -/
def splitLines : List Char → List (List Char)
  | [] => [[]]
  | c :: rest =>
    if c = '\n' then [] :: splitLines rest
    else
      match splitLines rest with
      | [] => [[c]]
      | l :: ls => (c :: l) :: ls

/-- substring occurrence test, mirroring the Python expression pat in s. -/
def subOccurs (pat : List Char) : List Char → Bool
  | [] => decide (pat = [])
  | c :: rest => pat.isPrefixOf (c :: rest) || subOccurs pat rest

/-- numeric value of a digit run, as Python int() of the matched group. -/
def digitsVal (d : List Char) : Nat :=
  d.foldl (fun a c => a * 10 + (c.toNat - '0'.toNat)) 0

/-- search for the literal pattern followed directly by at least one digit
and return the value of the maximal digit run, mirroring
re.search(pat + digit-group, s): scans occurrences left to right. -/
def numAfter (pat : List Char) : List Char → Option Nat
  | [] => none
  | c :: rest =>
    let s := c :: rest
    if pat.isPrefixOf s then
      let d := (s.drop pat.length).takeWhile Char.isDigit
      if d.isEmpty then numAfter pat rest else some (digitsVal d)
    else numAfter pat rest

/-- environment of _ensure_scp_capability: the result text of the
sh run filter command, and whether the send_configs apply batch fails. -/
structure NegotiatorEnv where
  show_run_result : String
  send_configs_failed : Bool

/-- side effects of one _ensure_scp_capability call: each send_configs batch
issued, in order, and the final value of the _scp_to_clean attribute. -/
structure NegotiatorEffects where
  config_writes : List (List String)
  scp_to_clean : List String
deriving DecidableEq

/-- the exception _ensure_scp_capability can raise: m.group(...) on a failed
window-size regex search (m is None) raises AttributeError. -/
inductive NegotiatorError where
  | attributeError
deriving DecidableEq

/-- final part of _ensure_scp_capability once scp_to_apply / _scp_to_clean
are computed: the empty-delta return, the not-force decline (which requires
the minimum configuration, ip scp server enable, to be in the delta), and
the send_configs apply step with its failure revert. -/
def scp_apply_gate (force : Bool) (send_configs_failed : Bool)
    (scp_to_apply scp_to_clean : List String) :
    Except NegotiatorError (Option Bool) × NegotiatorEffects :=
  if scp_to_apply = [] then
    (.ok none, ⟨[], scp_to_clean⟩)
  else if force = false ∧ scp_to_apply.contains "ip scp server enable" = true then
    (.ok (some false), ⟨[], []⟩)
  else if send_configs_failed then
    (.ok (some false), ⟨[scp_to_apply, scp_to_clean], []⟩)
  else
    (.ok (some true), ⟨[scp_to_apply], scp_to_clean⟩)

/-- embedding of AsyncCommunityIOSXEDriver._ensure_scp_capability
(cisco_iosxe/_async.py).  force = none means skip the check entirely.
The show-run output is split into lines; the scp enablement line is tested
by exact line membership, the ssh / tcp window sizes are taken from the
first line containing the respective substring, and a window below 65536
adds an apply directive plus the exact restore directive to the clean list. -/
def _ensure_scp_capability (env : NegotiatorEnv) (force : Option Bool) :
    Except NegotiatorError (Option Bool) × NegotiatorEffects :=
  match force with
  | none => (.ok none, ⟨[], []⟩)
  | some force_b =>
    let outputs := splitLines env.show_run_result.data
    let scp_present := outputs.contains "ip scp server enable".data
    let apply0 : List String := if scp_present then [] else ["ip scp server enable"]
    let clean0 : List String := if scp_present then [] else ["no ip scp server enable"]
    match outputs.find? (fun x => subOccurs "ip ssh".data x) with
    | none => scp_apply_gate force_b env.send_configs_failed apply0 clean0
    | some ssh_line =>
      match numAfter "ip ssh window-size ".data ssh_line with
      | none => (.error .attributeError, ⟨[], clean0⟩)
      | some ssh_window =>
        let apply1 := if ssh_window < 65536
          then apply0 ++ ["ip ssh window-size 65536"] else apply0
        let clean1 := if ssh_window < 65536
          then clean0 ++ ["ip ssh window-size " ++ toString ssh_window] else clean0
        match outputs.find? (fun x => subOccurs "ip tcp".data x) with
        | none => scp_apply_gate force_b env.send_configs_failed apply1 clean1
        | some tcp_line =>
          match numAfter "ip tcp window-size ".data tcp_line with
          | none => (.error .attributeError, ⟨[], clean1⟩)
          | some tcp_window =>
            let apply2 := if tcp_window < 65536
              then apply1 ++ ["ip tcp window-size 65536"] else apply1
            let clean2 := if tcp_window < 65536
              then clean1 ++ ["ip tcp window-size " ++ toString tcp_window] else clean1
            scp_apply_gate force_b env.send_configs_failed apply2 clean2

/-- error kinds of local filesystem access, mirroring the Python exceptions
the source distinguishes: FileNotFoundError is caught, PermissionError is
not mentioned in any except clause. -/
inductive FsError where
  | fileNotFound
  | permissionDenied
deriving DecidableEq

/-- local filesystem environment backing check_local_file: aiofiles open +
read, os.path.getsize, shutil.disk_usage(...).free, and hashlib.md5(...)
.hexdigest() on the bytes read. -/
structure LocalFs where
  read_bytes : String → Except FsError (List Nat)
  get_size : String → Except FsError Nat
  disk_free : String → Except FsError Nat
  md5_hexdigest : List Nat → String

/-- os.path.dirname (posixpath): text up to the last slash, with trailing
slashes stripped unless the head consists only of slashes. -/
def dirnameL (p : List Char) : List Char :=
  let i := p.length - (p.reverse.takeWhile (fun c => c ≠ '/')).length
  let head := p.take i
  if head ≠ [] ∧ head.any (fun c => c ≠ '/') then
    (head.reverse.dropWhile (fun c => c = '/')).reverse
  else head

/-- the path whose free space check_local_file inspects:
device_fs if truthy, else dirname of the file, with the empty path
replaced by the current directory. -/
def local_free_path (device_fs : Option String) (file_name : String) : String :=
  let path := match device_fs with
    | some d => if d = "" then String.mk (dirnameL file_name.data) else d
    | none => String.mk (dirnameL file_name.data)
  if path = "" then "." else path

/-- embedding of AsyncSCPFeature.check_local_file (driver.py).  The first
try block reads and hashes the file then reads its size, with
FileNotFoundError handled by the empty-hash / zero-size sentinel; any other
exception propagates.  The second try block reads free space of the
device_fs override or the file's directory, with FileNotFoundError handled
by free = 0. -/
def check_local_file (fs : LocalFs) (device_fs : Option String) (file_name : String) :
    Except FsError FileCheckResult :=
  let hash_and_size : Except FsError (String × Nat) :=
    match fs.read_bytes file_name with
    | .error .fileNotFound => .ok ("", 0)
    | .error e => .error e
    | .ok bs =>
      match fs.get_size file_name with
      | .error .fileNotFound => .ok ("", 0)
      | .error e => .error e
      | .ok n => .ok (fs.md5_hexdigest bs, n)
  match hash_and_size with
  | .error e => .error e
  | .ok (file_hash, file_size) =>
    match fs.disk_free (local_free_path device_fs file_name) with
    | .error .fileNotFound => .ok ⟨file_hash, file_size, 0⟩
    | .error e => .error e
    | .ok free_space => .ok ⟨file_hash, file_size, free_space⟩

/-- Python regex class w: word characters. -/
def wordChar (c : Char) : Bool := c.isAlphanum || c = '_'

/-- Python regex class s: whitespace characters. -/
def pyWhite (c : Char) : Bool :=
  c = ' ' || c = '\t' || c = '\n' || c = '\r' || c = '\x0B' || c = '\x0C'

/-- suffixes of the text starting right after each newline; together with
the whole text these are the positions where a multiline ^ anchor matches. -/
def suffixesAfterNewline : List Char → List (List Char)
  | [] => []
  | c :: rest =>
    if c = '\n' then rest :: suffixesAfterNewline rest
    else suffixesAfterNewline rest

/-- all line-start suffixes of the text, leftmost first. -/
def lineStarts (s : List Char) : List (List Char) := s :: suffixesAfterNewline s

/-- suffixes starting right after each equals sign of the current line
(a dot in the pattern does not cross a newline), in left-to-right order. -/
def eqSuffixesInLine : List Char → List (List Char)
  | [] => []
  | c :: rest =>
    if c = '\n' then []
    else if c = '=' then rest :: eqSuffixesInLine rest
    else eqSuffixesInLine rest

/-- tail of the hash pattern: skip whitespace (which may cross newlines),
then require 32 consecutive word characters and capture them. -/
def hashAfterEq (s : List Char) : Option (List Char) :=
  let w := (s.dropWhile pyWhite).takeWhile wordChar
  if 32 ≤ w.length then some (w.take 32) else none

/-- match of the verify-output hash pattern at one line start: the line must
begin with the word verify, then a greedy dot-star up to an equals sign
(rightmost equals sign tried first), then the 32-word-char capture. -/
def verifyHashAt (u : List Char) : Option (List Char) :=
  if "verify".data.isPrefixOf u then
    ((eqSuffixesInLine (u.drop 6)).reverse.filterMap hashAfterEq).head?
  else none

/-- multiline search of the verify-output hash pattern over the whole text,
first matching line start wins. -/
def findVerifyHash (s : List Char) : Option (List Char) :=
  ((lineStarts s).filterMap verifyHashAt).head?

/-- characters of the permission class of the dir-listing pattern. -/
def rwChar (c : Char) : Bool := c = 'r' || c = 'w' || c = '-'

/-- does fname occur in s before the end of the current line? (the dot-star
before the literal file name cannot cross a newline). -/
def inLineOccurs (fname : List Char) : List Char → Bool
  | [] => decide (fname = [])
  | c :: rest => fname.isPrefixOf (c :: rest) || (c ≠ '\n' && inLineOccurs fname rest)

/-- match of the dir-listing size pattern at one line start: whitespace,
an index number, whitespace, one or more permission characters, whitespace,
the captured size digits, then the rest of the line must contain the file
name literally. -/
def sizeMatchAt (fname : List Char) (u : List Char) : Option Nat :=
  let u1 := u.dropWhile pyWhite
  let d1 := u1.takeWhile Char.isDigit
  if d1.isEmpty then none else
  let u2 := (u1.drop d1.length).dropWhile pyWhite
  let r := u2.takeWhile rwChar
  if r.isEmpty then none else
  let u3 := (u2.drop r.length).dropWhile pyWhite
  let d2 := u3.takeWhile Char.isDigit
  if d2.isEmpty then none else
  if inLineOccurs fname (u3.drop d2.length) then some (digitsVal d2) else none

/-- multiline search of the dir-listing size pattern, first matching line
start wins. -/
def findSize (fname : List Char) (s : List Char) : Option Nat :=
  ((lineStarts s).filterMap (sizeMatchAt fname)).head?

/-- unanchored search for the free-space pattern: an opening parenthesis,
captured digits, then the literal text bytes free and a closing
parenthesis. -/
def findFree : List Char → Option Nat
  | [] => none
  | c :: rest =>
    if c = '(' then
      let d := rest.takeWhile Char.isDigit
      if !d.isEmpty && " bytes free)".data.isPrefixOf (rest.drop d.length) then
        some (digitsVal d)
      else findFree rest
    else findFree rest

/-- embedding of AsyncCommunityIOSXEDriver.check_device_file
(cisco_iosxe/_async.py), as a function of the two command responses it
parses: the verify-md5 output and the dir output.  The hash, the size and
the free space are extracted by three independent regex searches, each
falling back to the empty string or zero when its search fails. -/
def check_device_file (verify_output dir_output : String) (file_name : String) :
    FileCheckResult :=
  let file_hash := match findVerifyHash verify_output.data with
    | some h => String.mk h
    | none => ""
  let file_size := (findSize file_name.data dir_output.data).getD 0
  let free_space := (findFree dir_output.data).getD 0
  ⟨file_hash, file_size, free_space⟩

/-- classifier used to state the not-found sentinel property: the probe
returned (did not raise) with the empty hash and zero size. -/
def okHashSizeSentinel : Except FsError FileCheckResult → Bool
  | .ok r => r.hash == "" && r.size == 0
  | .error _ => false

/-- helper: a directive list headed by the scp enablement command contains it. -/
theorem contains_head (l : List String) :
    ("ip scp server enable" :: l).contains "ip scp server enable" = true := by
  simp [List.contains]

/-- helper: whenever the computed delta contains the scp enablement command
and force is off, the apply gate declines without any configuration write
and clears the rollback list. -/
theorem scp_apply_gate_declines (failb : Bool) (ap cl : List String)
    (hmem : ap.contains "ip scp server enable" = true) :
    scp_apply_gate false failb ap cl = (.ok (some false), ⟨[], []⟩) := by
  have hne : ap ≠ [] := by
    intro he
    subst he
    simp at hmem
  unfold scp_apply_gate
  rw [if_neg hne, if_pos ⟨rfl, hmem⟩]

/-- C1 (code bug evidence): a run in which capability changes were applied
(the negotiator returned true, so rollback directives were recorded) and
the copy engine then raises a transport failure propagates the failure with
cleanup_calls = 0: the recorded rollback directives are never executed,
because the source re-raises the exception before the cleanup line.  The
claim (and the spec) requires the rollback to run exactly once before the
failure surfaces. -/
theorem copy_failure_propagates_without_cleanup :
    file_transfer ⟨none, ⟨"aa", 5, 0⟩, ⟨"", 0, 9⟩, ⟨"aa", 5, 9⟩, fun _ => some true, false⟩
      .put "s" "d" true "" false (some true) true =
      (.error .transportFailure, ⟨1, 1, 0⟩) ∧
    (Effects.mk 1 1 0).cleanup_calls = 0 :=
  ⟨rfl, rfl⟩

/-- C2 (amended): for runs with verify_hash = true, when source and
destination fingerprints are equal and non-empty, file_transfer returns
exists = true, transferred = false, verified = true and never invokes the
copy engine (zero engine calls). -/
theorem idempotent_short_circuit (env : TransferEnv) (op : Operation)
    (src dst device_fs : String) (overwrite : Bool) (force : Option Bool) (cleanup : Bool)
    (h1 : env.src_probe.hash = env.dst_probe_pre.hash)
    (h2 : env.src_probe.hash ≠ "") :
    file_transfer env op src dst true device_fs overwrite force cleanup =
      (.ok ⟨true, false, true⟩, ⟨0, 0, 0⟩) := by
  have hd : env.dst_probe_pre.hash ≠ "" := h1 ▸ h2
  simp [file_transfer, h1, h2, hd]

/-- witness for the C2 theorem at a concrete environment. -/
theorem idempotent_short_circuit_witness :
    file_transfer ⟨none, ⟨"aa", 5, 0⟩, ⟨"aa", 5, 9⟩, ⟨"aa", 5, 9⟩, fun _ => none, true⟩
      .get "s" "d" true "" false (some false) true =
      (.ok ⟨true, false, true⟩, ⟨0, 0, 0⟩) :=
  idempotent_short_circuit ⟨none, ⟨"aa", 5, 0⟩, ⟨"aa", 5, 9⟩, ⟨"aa", 5, 9⟩, fun _ => none, true⟩
    .get "s" "d" "" false (some false) true rfl (by decide)

/-- C2 counterexample to the claim as stated: with verify_hash = false the
probes never run, so a source/destination pair with equal non-empty
fingerprints is still copied — the outcome is exists = false,
transferred = true, verified = false and the engine is called once, not the
claimed exists/verified = true with zero engine calls. -/
theorem idempotency_bypassed_when_verify_disabled :
    (FileCheckResult.mk "aa" 5 0).hash = (FileCheckResult.mk "aa" 5 9).hash ∧
    (FileCheckResult.mk "aa" 5 0).hash ≠ "" ∧
    file_transfer ⟨none, ⟨"aa", 5, 0⟩, ⟨"aa", 5, 9⟩, ⟨"aa", 5, 9⟩, fun _ => none, true⟩
      .put "s" "d" false "" false (some false) true =
      (.ok ⟨false, true, false⟩, ⟨1, 1, 0⟩) :=
  ⟨rfl, by decide, rfl⟩

/-- C3 (amended): for runs with verify_hash = true, when the destination
fingerprint is non-empty and differs from the source fingerprint and
overwrite = false, any returned outcome has transferred = false. -/
theorem no_silent_overwrite_when_verified (env : TransferEnv) (op : Operation)
    (src dst device_fs : String) (force : Option Bool) (cleanup : Bool)
    (r : FileTransferResult) (eff : Effects)
    (h1 : env.dst_probe_pre.hash ≠ "")
    (h2 : env.dst_probe_pre.hash ≠ env.src_probe.hash)
    (h : file_transfer env op src dst true device_fs false force cleanup = (.ok r, eff)) :
    r.transferred = false := by
  simp only [file_transfer, transfer_tail] at h
  simp at h
  repeat' split at h
  all_goals simp_all
  all_goals (obtain ⟨hh1, hh2⟩ := h; subst hh1; rfl)

/-- witness for the C3 theorem at a concrete environment. -/
theorem no_silent_overwrite_when_verified_witness :
    (FileTransferResult.mk true false false).transferred = false :=
  no_silent_overwrite_when_verified
    ⟨none, ⟨"aa", 5, 0⟩, ⟨"bb", 3, 9⟩, ⟨"bb", 3, 9⟩, fun _ => none, true⟩
    .put "s" "d" "" (some false) true ⟨true, false, false⟩ ⟨0, 0, 0⟩
    (by decide) (by decide) rfl

/-- C3 counterexample to the claim as stated: with verify_hash = false the
destination is never probed, so a non-empty destination fingerprint that
differs from the source is overwritten even though overwrite = false —
transferred = true. -/
theorem overwrite_gate_bypassed_when_verify_disabled :
    (FileCheckResult.mk "bb" 3 9).hash ≠ "" ∧
    (FileCheckResult.mk "bb" 3 9).hash ≠ (FileCheckResult.mk "aa" 5 0).hash ∧
    file_transfer ⟨none, ⟨"aa", 5, 0⟩, ⟨"bb", 3, 9⟩, ⟨"aa", 5, 9⟩, fun _ => none, true⟩
      .put "s" "d" false "" false (some false) true =
      (.ok ⟨false, true, false⟩, ⟨1, 1, 0⟩) :=
  ⟨by decide, by decide, rfl⟩

/-- C4 (amended): for runs with verify_hash = true, when the probed
destination free space is smaller than the probed source size, any returned
outcome has transferred = false. -/
theorem space_gate_when_verified (env : TransferEnv) (op : Operation)
    (src dst device_fs : String) (overwrite : Bool) (force : Option Bool) (cleanup : Bool)
    (r : FileTransferResult) (eff : Effects)
    (hspace : env.dst_probe_pre.free < env.src_probe.size)
    (h : file_transfer env op src dst true device_fs overwrite force cleanup = (.ok r, eff)) :
    r.transferred = false := by
  simp only [file_transfer, transfer_tail] at h
  simp at h
  repeat' split at h
  all_goals simp_all
  all_goals (obtain ⟨hh1, hh2⟩ := h; subst hh1; rfl)

/-- witness for the C4 theorem at a concrete environment. -/
theorem space_gate_when_verified_witness :
    (FileTransferResult.mk false false false).transferred = false :=
  space_gate_when_verified
    ⟨none, ⟨"aa", 5, 0⟩, ⟨"", 0, 2⟩, ⟨"", 0, 2⟩, fun _ => none, true⟩
    .put "s" "d" "" false (some false) true ⟨false, false, false⟩ ⟨0, 0, 0⟩
    (by decide) rfl

/-- C4 counterexample to the claim as stated: with verify_hash = false both
probe records keep their zero defaults, so the space gate compares 0 < 0
and passes even though the destination's free space (2) is smaller than the
source's size (5) — the file is transferred anyway. -/
theorem space_gate_bypassed_when_verify_disabled :
    (FileCheckResult.mk "" 0 2).free < (FileCheckResult.mk "aa" 5 0).size ∧
    file_transfer ⟨none, ⟨"aa", 5, 0⟩, ⟨"", 0, 2⟩, ⟨"aa", 5, 2⟩, fun _ => none, true⟩
      .put "s" "d" false "" false (some false) true =
      (.ok ⟨false, true, false⟩, ⟨1, 1, 0⟩) :=
  ⟨by decide, rfl⟩

/-- C5 (amended): when capability inspection finds the bulk-copy enablement
directive (ip scp server enable) absent from the show-run lines and
force = False, the negotiator issues zero configuration writes, and if the
inspection completes without an exception its decision is False
(incapable, declined to change). -/
theorem checkonly_declines_when_enable_missing (env : NegotiatorEnv) (b : Option Bool)
    (h1 : (splitLines env.show_run_result.data).contains "ip scp server enable".data = false)
    (h2 : (_ensure_scp_capability env (some false)).1 = .ok b) :
    b = some false ∧ (_ensure_scp_capability env (some false)).2.config_writes = [] := by
  have key : (_ensure_scp_capability env (some false)).2.config_writes = [] ∧
      ∀ c, (_ensure_scp_capability env (some false)).1 = .ok c → c = some false := by
    simp only [_ensure_scp_capability, h1, Bool.false_eq_true, if_false]
    rcases hf : (splitLines env.show_run_result.data).find? (fun x => subOccurs "ip ssh".data x)
      with _ | sshline
    · simp only [hf]
      rw [scp_apply_gate_declines _ _ _ (contains_head _)]
      simp
    · simp only [hf]
      rcases hn : numAfter "ip ssh window-size ".data sshline with _ | w
      · simp only [hn]
        simp
      · simp only [hn]
        by_cases hw : w < 65536 <;> simp only [hw, if_true, if_false]
        all_goals
          rcases ht : (splitLines env.show_run_result.data).find?
              (fun x => subOccurs "ip tcp".data x) with _ | tcpline
        all_goals simp only [ht]
        · rw [scp_apply_gate_declines _ _ _ (by simp [List.contains])]
          simp
        · rcases hm : numAfter "ip tcp window-size ".data tcpline with _ | v
          · simp only [hm]
            simp
          · simp only [hm]
            by_cases hv : v < 65536 <;> simp only [hv, if_true, if_false] <;>
              rw [scp_apply_gate_declines _ _ _ (by simp [List.contains])] <;> simp
        · rw [scp_apply_gate_declines _ _ _ (contains_head _)]
          simp
        · rcases hm : numAfter "ip tcp window-size ".data tcpline with _ | v
          · simp only [hm]
            simp
          · simp only [hm]
            by_cases hv : v < 65536 <;> simp only [hv, if_true, if_false] <;>
              rw [scp_apply_gate_declines _ _ _ (by simp [List.contains])] <;> simp
  exact ⟨key.2 b h2, key.1⟩

/-- witness for the C5 theorem on a show-run output with no scp directive. -/
theorem checkonly_declines_when_enable_missing_witness :
    (some false : Option Bool) = some false ∧
    (_ensure_scp_capability ⟨"hostname r1", false⟩ (some false)).2.config_writes = [] :=
  checkonly_declines_when_enable_missing ⟨"hostname r1", false⟩ (some false) (by decide) rfl

/-- C5 counterexample to the claim as stated: scp is already enabled but
both window sizes are below 65536, so the inspection delta is non-empty;
with force = False the negotiator nonetheless issues one configuration-write
batch (the window-size directives) and reports true, not the claimed
declined decision with zero writes. -/
theorem checkonly_still_writes_window_sizes :
    _ensure_scp_capability
      ⟨"ip scp server enable\nip ssh window-size 1024\nip tcp window-size 1024", false⟩
      (some false) =
      (.ok (some true), ⟨[["ip ssh window-size 65536", "ip tcp window-size 65536"]],
        ["ip ssh window-size 1024", "ip tcp window-size 1024"]⟩) ∧
    [["ip ssh window-size 65536", "ip tcp window-size 65536"]] ≠ ([] : List (List String)) :=
  ⟨rfl, by decide⟩

/-- C6 (amended): for a verify_hash = true run whose source fingerprint is
non-empty, whose destination is absent before the run, with enough free
space, a capability decision other than an explicit decline, a successful
copy and a matching post-check fingerprint, the outcome is exists = true,
transferred = true, verified = true. -/
theorem fresh_copy_reports_exists_transferred_verified (env : TransferEnv) (op : Operation)
    (src dst device_fs : String) (overwrite : Bool) (force : Option Bool) (cleanup : Bool)
    (h1 : env.src_probe.hash ≠ "")
    (h2 : env.dst_probe_pre.hash = "")
    (h3 : env.src_probe.size ≤ env.dst_probe_pre.free)
    (h4 : env.ensure_scp force ≠ some false)
    (h5 : env.copy_ok = true)
    (h6 : env.dst_probe_post.hash = env.src_probe.hash) :
    (file_transfer env op src dst true device_fs overwrite force cleanup).1 =
      .ok ⟨true, true, true⟩ := by
  simp [file_transfer, transfer_tail, h1, h2, h4, h5, h6, Nat.not_lt.mpr h3]

/-- witness for the C6 theorem at a concrete environment. -/
theorem fresh_copy_reports_exists_transferred_verified_witness :
    (file_transfer ⟨none, ⟨"cc", 5, 0⟩, ⟨"", 0, 9⟩, ⟨"cc", 5, 9⟩, fun _ => none, true⟩
      .put "s" "d" true "" false none true).1 = .ok ⟨true, true, true⟩ :=
  fresh_copy_reports_exists_transferred_verified
    ⟨none, ⟨"cc", 5, 0⟩, ⟨"", 0, 9⟩, ⟨"cc", 5, 9⟩, fun _ => none, true⟩
    .put "s" "d" "" false none true (by decide) rfl (by decide) (by decide) rfl rfl

/-- C6 counterexample to the claim as stated: a 32-hex source fingerprint,
destination absent before the run, successful copy and matching post-check
hash yield exists = true (the post-check sees the created file and sets the
field), not the claimed exists = false. -/
theorem fresh_copy_sets_exists_true :
    file_transfer ⟨none, ⟨"0123456789abcdef0123456789abcdef", 5, 0⟩, ⟨"", 0, 9⟩,
        ⟨"0123456789abcdef0123456789abcdef", 5, 9⟩, fun _ => none, true⟩
      .put "s" "d" true "" false (some false) true =
      (.ok ⟨true, true, true⟩, ⟨1, 1, 0⟩) ∧
    (FileTransferResult.mk true true true).exists ≠ false :=
  ⟨rfl, by decide⟩

/-- C7: for a verify_hash = true run whose source probe yields an empty
fingerprint, file_transfer returns exists/transferred/verified all false
with zero negotiator calls and zero engine calls: the not-found
short-circuit fires before capability negotiation, the space check and the
copy. -/
theorem source_missing_short_circuit (env : TransferEnv) (op : Operation)
    (src dst device_fs : String) (overwrite : Bool) (force : Option Bool) (cleanup : Bool)
    (h : env.src_probe.hash = "") :
    file_transfer env op src dst true device_fs overwrite force cleanup =
      (.ok ⟨false, false, false⟩, ⟨0, 0, 0⟩) := by
  simp [file_transfer, h]

/-- witness for the C7 theorem at a concrete environment. -/
theorem source_missing_short_circuit_witness :
    file_transfer ⟨none, ⟨"", 0, 0⟩, ⟨"", 0, 0⟩, ⟨"", 0, 0⟩, fun _ => none, true⟩
      .put "src.bin" "dst.bin" true "" false (some false) true =
      (.ok ⟨false, false, false⟩, ⟨0, 0, 0⟩) :=
  source_missing_short_circuit ⟨none, ⟨"", 0, 0⟩, ⟨"", 0, 0⟩, ⟨"", 0, 0⟩, fun _ => none, true⟩
    .put "src.bin" "dst.bin" "" false (some false) true rfl

/-- C8 (amended): every FileCheckResult the local probe check_local_file
returns satisfies the invariant hash = empty implies size = 0, given that
the hash function never produces an empty digest (an md5 hexdigest has 32
characters). -/
theorem local_probe_empty_hash_zero_size (fs : LocalFs) (device_fs : Option String)
    (file_name : String) (r : FileCheckResult)
    (hmd5 : ∀ bs, fs.md5_hexdigest bs ≠ "")
    (h : check_local_file fs device_fs file_name = .ok r)
    (hh : r.hash = "") : r.size = 0 := by
  unfold check_local_file at h
  repeat' split at h
  all_goals simp_all
  all_goals (subst h; simp_all)

/-- witness for the C8 theorem at a concrete filesystem. -/
theorem local_probe_empty_hash_zero_size_witness :
    (FileCheckResult.mk "" 0 7).size = 0 :=
  local_probe_empty_hash_zero_size
    ⟨fun _ => .error .fileNotFound, fun _ => .ok 3, fun _ => .ok 7,
      fun _ => "d41d8cd98f00b204e9800998ecf8427e"⟩ none "missing.bin" ⟨"", 0, 7⟩
    (fun _ => by show ("d41d8cd98f00b204e9800998ecf8427e" : String) ≠ ""; decide) rfl rfl

/-- C8 counterexample for the remote probe: the hash and the size are
extracted by independent searches over two different command outputs, so a
verify output with no hash token combined with a dir listing that shows the
file yields hash = empty with size = 456, violating the claimed invariant. -/
theorem device_probe_empty_hash_nonzero_size :
    check_device_file "%Error verifying file" "  11  -rw-  456  foo\n(100 bytes free)" "foo" =
      ⟨"", 456, 100⟩ ∧ (456 : Nat) ≠ 0 :=
  ⟨by decide, by decide⟩

/-- C9 (amended): check_local_file returns the empty-hash, zero-size
sentinel instead of raising when the file is missing (the not-found error),
provided the free-space lookup does not itself raise a permission error. -/
theorem local_probe_not_found_sentinel (fs : LocalFs) (device_fs : Option String)
    (file_name : String)
    (h1 : fs.read_bytes file_name = .error .fileNotFound)
    (h2 : fs.disk_free (local_free_path device_fs file_name) ≠ .error .permissionDenied) :
    okHashSizeSentinel (check_local_file fs device_fs file_name) = true := by
  unfold check_local_file
  rw [h1]
  rcases hd : fs.disk_free (local_free_path device_fs file_name) with e | n
  · cases e
    · simp [okHashSizeSentinel]
    · exact absurd hd h2
  · simp [okHashSizeSentinel]

/-- witness for the C9 theorem at a concrete filesystem. -/
theorem local_probe_not_found_sentinel_witness :
    okHashSizeSentinel (check_local_file ⟨fun _ => .error .fileNotFound, fun _ => .ok 0,
      fun _ => .ok 5, fun _ => "x"⟩ none "gone.bin") = true :=
  local_probe_not_found_sentinel
    ⟨fun _ => .error .fileNotFound, fun _ => .ok 0, fun _ => .ok 5, fun _ => "x"⟩
    none "gone.bin" rfl (by decide)

/-- C9 counterexample to the claim as stated: a permission error while
opening the file is not caught by the source (only the not-found error is),
so check_local_file propagates the exception instead of returning the
empty-hash sentinel — it is not total under access failures. -/
theorem local_probe_permission_error_raises :
    check_local_file ⟨fun _ => .error .permissionDenied, fun _ => .ok 0, fun _ => .ok 0,
      fun _ => ""⟩ none "secret.bin" = .error .permissionDenied :=
  rfl

/-- C10: for every run with verify_hash = false that returns an outcome
rather than raising, the outcome has verified = false and exists = false,
even when the copy succeeded: disabling hash verification makes the
caller-facing success field unattainable. -/
theorem no_verify_outcome_never_verified (env : TransferEnv) (op : Operation)
    (src dst device_fs : String) (overwrite : Bool) (force : Option Bool) (cleanup : Bool)
    (r : FileTransferResult) (eff : Effects)
    (h : file_transfer env op src dst false device_fs overwrite force cleanup = (.ok r, eff)) :
    r.verified = false ∧ r.exists = false := by
  simp only [file_transfer, transfer_tail] at h
  simp at h
  repeat' split at h
  all_goals simp_all
  all_goals (obtain ⟨h1, h2⟩ := h; subst h1; exact ⟨rfl, rfl⟩)

/-- witness for the C10 theorem at a concrete environment. -/
theorem no_verify_outcome_never_verified_witness :
    (FileTransferResult.mk false true false).verified = false ∧
    (FileTransferResult.mk false true false).exists = false :=
  no_verify_outcome_never_verified
    ⟨none, ⟨"aa", 1, 0⟩, ⟨"", 0, 0⟩, ⟨"", 0, 0⟩, fun _ => none, true⟩
    .put "s" "d" "" false none true ⟨false, true, false⟩ ⟨1, 1, 0⟩ rfl

end ScrapliScp
